import Mathlib

/-!
Verification development for the connection-adoption core of libwebsockets
(`lib/core-net/adopt.c`).  The C source is shallowly embedded: pure scans
become Lean functions, the fallible multi-stage adoption pipeline becomes a
function over the input configuration together with an oracle recording the
outcome of each fallible collaborator call, and the observable effects
(live-connection counter, parent child list, descriptor closes, event order)
are collected in a result record.
-/

namespace Adopt

/-- `~0` as a C `unsigned int`: initial value of `lowest` in
`lws_get_idlest_tsi`. -/
def UINT_MAX : Nat := 2 ^ 32 - 1

/-- The scan loop body of `lws_get_idlest_tsi` (adopt.c lines 33-40):
walk the per-thread fd counts, tracking the lowest count seen (`lowest`)
and its index (`hit`, `-1` when none), skipping threads whose count equals
`excl` (the C expression `fd_limit_per_thread - 1` as unsigned). -/
def idlest_scan (excl : Nat) : List Nat → Nat → Nat → Int → Int
  | [], _, _, hit => hit
  | c :: rest, idx, lowest, hit =>
    if c ≠ excl ∧ c < lowest then
      idlest_scan excl rest (idx + 1) c (idx : Int)
    else
      idlest_scan excl rest (idx + 1) lowest hit

/-- `lws_get_idlest_tsi` (adopt.c lines 27-43).  `fds` lists
`context.pt[n].fds_count` for `n` in `0..count_threads`; `fdLimit` is
`context.fd_limit_per_thread`.  `fd_limit_per_thread - 1` is computed in
C unsigned arithmetic, so `fdLimit = 0` wraps to `UINT_MAX`. -/
def lws_get_idlest_tsi (fds : List Nat) (fdLimit : Nat) : Int :=
  idlest_scan (if fdLimit = 0 then UINT_MAX else fdLimit - 1) fds 0 UINT_MAX (-1)

/-- Lifecycle state set through `lwsi_set_state`.  `zeroed` is the state of a
freshly zero-allocated slot; this core only ever sets `LRS_UNCONNECTED`. -/
inductive LwsState
  | zeroed
  | unconnected
deriving DecidableEq, Repr

/-- Observable events emitted by the embedded pipeline, in program order:
the `LWS_CALLBACK_WSI_CREATE` notification (with whether the user-memory
argument is the C `NULL`), `lws_peer_add_wsi`, setting and clearing of
`undergoing_init_from_other_pt`, `__insert_wsi_socket_into_fds`, the
new-client-instantiated protocol callback, the finish-phase
`lws_role_call_adoption_bind`, `lws_cancel_service_pt`, the general
teardown entry `lws_close_free_wsi`, and the readbuf path events
(synthesized `POLLIN` and `lws_service_fd_tsi`). -/
inductive Event
  | wsiCreateCb (userNull : Bool)
  | peerAdd
  | setInitFlag
  | insertFds
  | newClientCb
  | bindFinish
  | clearInitFlag
  | cancelService
  | closeFreeWsi
  | pollinFlagged
  | serviceFd
deriving DecidableEq, Repr

/-- The connection object (`struct lws`, the "slot").  Only the fields this
core reads or writes are modelled; every field default is the value left by
the zeroing allocation `lws_zalloc`.  `id` is a modelling identifier naming
the allocation (used for membership in the parent child list).  `none` for
`desc` models `LWS_SOCK_INVALID`; `none` for `position_in_fds_table` models
the `LWS_NO_FDS_POS` sentinel. -/
structure Wsi where
  id : Nat := 0
  server_flag : Bool := false
  tsi : Nat := 0
  vhost_bound : Bool := false
  context_bound : Bool := false
  pending_timeout_cleared : Bool := false
  rxflow_allow : Bool := false
  state : LwsState := LwsState.zeroed
  hdr_parsing_completed : Bool := false
  tls_use_ssl : Bool := false
  protocol : Option Nat := none
  user_space : Bool := false
  desc : Option Nat := none
  position_in_fds_table : Option Nat := none
  has_parent : Bool := false
  sibling_list : List Nat := []
  undergoing_init_from_other_pt : Bool := false
  buflist : List (List Nat) := []
  in_pt_buflist : Bool := false
  http_ah : Bool := false
deriving DecidableEq, Repr

/-- One protocol descriptor of the vhost table: a name and the declared
per-session user-memory size. -/
structure Protocol where
  name : String
  per_session_data_size : Nat
deriving DecidableEq, Repr

/-- The vhost fields this core reads: the ordered protocol table and whether
TLS is configured (`LWS_SSL_ENABLED`). -/
structure Vhost where
  name : String
  protocols : List Protocol
  ssl_enabled : Bool
deriving DecidableEq, Repr

/-- The context fields this core reads: the per-thread `fds_count` table,
`fd_limit_per_thread`, the process-wide live-connection counter
`count_wsi_allocated`, and the peer ceiling `ip_limit_wsi`. -/
structure Ctx where
  pt_fds_counts : List Nat
  fd_limit_per_thread : Nat
  count_wsi_allocated : Nat
  ip_limit_wsi : Nat
deriving DecidableEq, Repr

/-- The parent slot data read by adoption: its thread index and its child
list (as slot identifiers). -/
structure Parent where
  tsi : Nat
  child_list : List Nat
deriving DecidableEq, Repr

/-- The child list supplied with the optional parent (`[]` without one). -/
def child_list0 (parent : Option Parent) : List Nat :=
  match parent with
  | some p => p.child_list
  | none => []

/-- The parent child list after step 3 linked the new slot `nid` at its
head. -/
def child_linked (parent : Option Parent) (nid : Nat) : List Nat :=
  match parent with
  | some p => nid :: p.child_list
  | none => []

/-- The `lws_adoption_type` flag bits read by this core. -/
structure AdoptType where
  socket : Bool := false
  http : Bool := false
  allow_ssl : Bool := false
  udp : Bool := false
deriving DecidableEq, Repr

/-- Outcomes of the fallible collaborator calls made by one adoption:
`peer` is the `lws_get_or_create_peer` result (the count held by the peer
record, `none` when no record could be obtained), the booleans are the
success of `lws_zalloc`, `lws_plat_set_nonblocking`,
`lws_ensure_user_space`, the pre-phase `lws_role_call_adoption_bind`, the
event-loop `accept` hook (presence and result),
`__insert_wsi_socket_into_fds` (with the position it assigns),
`lws_server_socket_service_ssl`, and the new-client protocol callback.
`bind_finish_ok` is the result of the finish-phase role bind, whose return
value the C code does not inspect. -/
structure Oracle where
  peer : Option Nat := none
  alloc_ok : Bool := true
  nonblocking_ok : Bool := true
  user_space_ok : Bool := true
  bind_ok : Bool := true
  accept_present : Bool := false
  accept_ok : Bool := true
  insert_ok : Bool := true
  insert_pos : Nat := 0
  ssl_ok : Bool := true
  callback_ok : Bool := true
  bind_finish_ok : Bool := true
deriving DecidableEq, Repr

/-- Which return site of `lws_adopt_descriptor_vhost` produced the result:
the silent peer-limit rejection, the slot-allocation failure return, the
`bail:` label, the `fail:` label, or the successful return. -/
inductive ExitPath
  | rejected
  | noSlot
  | bailPath
  | failPath
  | okPath
deriving DecidableEq, Repr

/-- Observable outcome of one adoption call: the returned slot, the final
`count_wsi_allocated`, the final parent child list (`[]` when no parent was
supplied), how many times the adopted descriptor was closed, the return
site, and the emitted event trace. -/
structure AdoptResult where
  wsi : Option Wsi
  count : Nat
  parent_child : List Nat
  closes : Nat
  exit : ExitPath
  trace : List Event
deriving DecidableEq, Repr

/-- `lws_create_new_server_wsi` result: the slot (or `none`), the updated
live-connection counter, and the events emitted. -/
structure CreateResult where
  wsi : Option Wsi
  count : Nat
  trace : List Event
deriving DecidableEq, Repr

/-- The thread index used by `lws_create_new_server_wsi` (adopt.c lines
49-52): the caller-fixed index when nonnegative, otherwise the selector. -/
def effective_tsi (ctx : Ctx) (fixed : Int) : Int :=
  if fixed < 0 then lws_get_idlest_tsi ctx.pt_fds_counts ctx.fd_limit_per_thread
  else fixed

/-- `lws_create_new_server_wsi` (adopt.c lines 45-105): pick the thread
index, fail when none has capacity or allocation fails, otherwise build the
zero-allocated slot with exactly the fields the code assigns, bump
`count_wsi_allocated`, and fire `LWS_CALLBACK_WSI_CREATE` on the vhost
default protocol with `NULL` user memory. -/
def lws_create_new_server_wsi (vh : Vhost) (ctx : Ctx) (fixed : Int)
    (alloc_ok : Bool) (nid : Nat) : CreateResult :=
  let n := effective_tsi ctx fixed
  if n < 0 then ⟨none, ctx.count_wsi_allocated, []⟩
  else if !alloc_ok then ⟨none, ctx.count_wsi_allocated, []⟩
  else
    ⟨some { id := nid, server_flag := true, tsi := n.toNat,
            vhost_bound := true, context_bound := true,
            pending_timeout_cleared := true, rxflow_allow := true,
            state := LwsState.unconnected, hdr_parsing_completed := false,
            tls_use_ssl := vh.ssl_enabled, protocol := some 0,
            user_space := false, desc := none,
            position_in_fds_table := none },
     ctx.count_wsi_allocated + 1, [Event.wsiCreateCb true]⟩

/-- The peer-limit admission test (adopt.c lines 123-134, built with
`LWS_WITH_PEER_LIMITS`): a socket adoption is rejected when a peer record
exists, `ip_limit_wsi` is configured nonzero, and the record count has
reached it. -/
def peer_over_limit (ctx : Ctx) (type0 : AdoptType) (o : Oracle) : Bool :=
  type0.socket &&
    (match o.peer with
     | some c => decide (ctx.ip_limit_wsi ≠ 0) && decide (ctx.ip_limit_wsi ≤ c)
     | none => false)

/-- Modelled from the spec: `lws_close_free_wsi`, the single general-purpose
close-and-free entry point for slots (its body is not under src).  Spec
contract: remove from the poll table if present, decrement the Peer counter
if a Peer reference exists, detach from the parent child list, free user
memory, free the slot (releasing the live-connection count taken at
allocation), and close the descriptor. -/
def lws_close_free_wsi (count : Nat) (pchild : List Nat) (wid : Nat) :
    Nat × List Nat :=
  (count - 1, pchild.filter (fun c => c != wid))

/-- The `bail:` label (adopt.c lines 281-295): pop the slot off the head of
the parent child list (restoring the recorded sibling list), free user
memory, decrement `count_wsi_allocated`, unbind from the vhost, free the
slot, and close the raw descriptor once via `compatible_close(fd.sockfd)`
(`sockfd` and `filefd` are one union field). -/
def bail_result (cnt : Nat) (parent : Option Parent) (w : Wsi)
    (tr : List Event) : AdoptResult :=
  { wsi := none, count := cnt - 1,
    parent_child := match parent with
      | some _ => w.sibling_list
      | none => [],
    closes := 1, exit := ExitPath.bailPath, trace := tr }

/-- The `fail:` label (adopt.c lines 274-279): only a socket-type adoption
is handed to `lws_close_free_wsi`; a file-type adoption returns failure
with no cleanup at all. -/
def fail_result (cnt : Nat) (pchild : List Nat) (wid : Nat)
    (type1 : AdoptType) (tr : List Event) : AdoptResult :=
  if type1.socket then
    { wsi := none, count := (lws_close_free_wsi cnt pchild wid).1,
      parent_child := (lws_close_free_wsi cnt pchild wid).2,
      closes := 1, exit := ExitPath.failPath,
      trace := tr ++ [Event.closeFreeWsi] }
  else
    { wsi := none, count := cnt, parent_child := pchild, closes := 0,
      exit := ExitPath.failPath, trace := tr }

/-- Steps after registration (adopt.c lines 251-272): the deferred
new-client-instantiated protocol callback (a nonzero return goes to
`fail:`), the finish-phase role bind whose return value is ignored,
clearing `undergoing_init_from_other_pt`, and `lws_cancel_service_pt`. -/
def adopt_finish (cnt : Nat) (pchild : List Nat) (type1 : AdoptType)
    (w : Wsi) (tr : List Event) (o : Oracle) : AdoptResult :=
  if !o.callback_ok then
    fail_result cnt pchild w.id type1 (tr ++ [Event.newClientCb])
  else
    { wsi := some { w with undergoing_init_from_other_pt := false },
      count := cnt, parent_child := pchild, closes := 0,
      exit := ExitPath.okPath,
      trace := tr ++ [Event.newClientCb, Event.bindFinish,
                      Event.clearInitFlag, Event.cancelService] }

/-- Registration (adopt.c lines 225-249, `LWS_MAX_SMP > 1` build): mark the
slot as still undergoing init from another pt, then either insert into the
owning thread fds table under its lock (failure goes to `fail:`) or, when
TLS is still allowed, hand off to `lws_server_socket_service_ssl` (failure
goes to `fail:`). -/
def adopt_register (cnt : Nat) (pchild : List Nat) (type1 : AdoptType)
    (w : Wsi) (tr : List Event) (o : Oracle) : AdoptResult :=
  let w1 := { w with undergoing_init_from_other_pt := true }
  let tr1 := tr ++ [Event.setInitFlag]
  if !type1.allow_ssl then
    if !o.insert_ok then fail_result cnt pchild w1.id type1 tr1
    else
      adopt_finish cnt pchild type1
        { w1 with position_in_fds_table := some o.insert_pos }
        (tr1 ++ [Event.insertFds]) o
  else
    if !o.ssl_ok then fail_result cnt pchild w1.id type1 tr1
    else adopt_finish cnt pchild type1 w1 tr1 o

/-- The optional event-loop accept hook (adopt.c lines 219-223): when the
backend declares one and it rejects the slot, control goes to `fail:`. -/
def adopt_accept_hook (cnt : Nat) (pchild : List Nat) (type1 : AdoptType)
    (w : Wsi) (tr : List Event) (o : Oracle) : AdoptResult :=
  if o.accept_present && !o.accept_ok then
    fail_result cnt pchild w.id type1 tr
  else adopt_register cnt pchild type1 w tr o

/-- TLS masking and the pre-phase role bind (adopt.c lines 200-206):
`LWS_ADOPT_ALLOW_SSL` is stripped unless the vhost has TLS and the
descriptor is a socket; a failed role bind goes to `bail:`. -/
def adopt_bind_role (vh : Vhost) (cnt : Nat) (parent : Option Parent)
    (pchild : List Nat) (type0 : AdoptType) (w : Wsi) (tr : List Event)
    (o : Oracle) : AdoptResult :=
  let type1 := if !vh.ssl_enabled || !type0.socket then
      { type0 with allow_ssl := false }
    else type0
  if !o.bind_ok then bail_result cnt parent w tr
  else adopt_accept_hook cnt pchild type1 w tr o

/-- Protocol selection by name (adopt.c lines 186-198).  The lookup
`lws_vhost_name_to_protocol` is a scan of the vhost protocol table for the
name; an absent name goes to `bail:`, and a failed
`lws_ensure_user_space` allocation (only attempted for a nonzero declared
size) also goes to `bail:`. -/
def adopt_select_protocol (vh : Vhost) (cnt : Nat) (parent : Option Parent)
    (pchild : List Nat) (type0 : AdoptType) (vh_prot_name : Option String)
    (w : Wsi) (tr : List Event) (o : Oracle) : AdoptResult :=
  match vh_prot_name with
  | none => adopt_bind_role vh cnt parent pchild type0 w tr o
  | some nm =>
    match vh.protocols.findIdx? (fun pr => pr.name == nm) with
    | none => bail_result cnt parent w tr
    | some i =>
      let w1 := { w with protocol := some i }
      if (vh.protocols.getD i ⟨"", 0⟩).per_session_data_size ≠ 0 then
        if !o.user_space_ok then bail_result cnt parent w1 tr
        else
          adopt_bind_role vh cnt parent pchild type0
            { w1 with user_space := true } tr o
      else adopt_bind_role vh cnt parent pchild type0 w1 tr o

/-- The pipeline from step 4 once the slot exists and is linked to any
parent (adopt.c lines 166-272): non-blocking enforcement on the descriptor
(failure to `bail:`), recording the descriptor in the slot, then protocol
selection and the rest of the tail.  `w1` is the linked slot, `tr1` the
events emitted so far. -/
def adopt_linked (vh : Vhost) (cnt : Nat) (type0 : AdoptType) (fd : Nat)
    (nm : Option String) (parent : Option Parent) (w1 : Wsi)
    (tr1 : List Event) (o : Oracle) : AdoptResult :=
  if !o.nonblocking_ok then bail_result cnt parent w1 tr1
  else
    adopt_select_protocol vh cnt parent (child_linked parent w1.id) type0 nm
      { w1 with desc := some fd } tr1 o

/-- `lws_adopt_descriptor_vhost` (adopt.c lines 110-296): peer admission
(socket only), slot creation on the parent thread index when a parent is
supplied, `lws_peer_add_wsi`, parent linkage at the head of the child list,
non-blocking enforcement (failure to `bail:`), recording the descriptor,
then protocol selection, role binding, registration and the post steps. -/
def lws_adopt_descriptor_vhost (ctx : Ctx) (vh : Vhost) (type0 : AdoptType)
    (fd : Nat) (vh_prot_name : Option String) (parent : Option Parent)
    (nid : Nat) (o : Oracle) : AdoptResult :=
  let pchild0 : List Nat := child_list0 parent
  if peer_over_limit ctx type0 o then
    { wsi := none, count := ctx.count_wsi_allocated, parent_child := pchild0,
      closes := 0, exit := ExitPath.rejected, trace := [] }
  else
    let fixed : Int := match parent with
      | some p => (p.tsi : Int)
      | none => -1
    let cr := lws_create_new_server_wsi vh ctx fixed o.alloc_ok nid
    match cr.wsi with
    | none =>
      { wsi := none, count := cr.count, parent_child := pchild0,
        closes := if type0.socket then 1 else 0, exit := ExitPath.noSlot,
        trace := cr.trace }
    | some w0 =>
      let tr1 := cr.trace ++
        (if type0.socket && o.peer.isSome then [Event.peerAdd] else [])
      let w1 := match parent with
        | some p => { w0 with has_parent := true, sibling_list := p.child_list }
        | none => w0
      adopt_linked vh cr.count type0 fd vh_prot_name parent w1 tr1 o

/-- Modelled from the spec: the owning thread poll loop (not under src)
must treat a slot whose `undergoing_init_from_other_pt` flag is set as not
yet actionable and skip servicing it. -/
def pt_service_may_process (w : Wsi) : Bool :=
  !w.undergoing_init_from_other_pt

/-- Outcomes of the collaborator calls made by `adopt_socket_readbuf`:
whether the `lws_buflist_append_segment` allocation succeeds, whether
`lws_header_table_attach` obtains a header-parsing context (returns zero),
and whether the synchronous `lws_service_fd_tsi` reports the connection
closed. -/
structure ReadbufOracle where
  append_alloc_ok : Bool := true
  attach_ok : Bool := true
  service_closed : Bool := false
deriving DecidableEq, Repr

/-- Result of `adopt_socket_readbuf`: the returned slot and the events
emitted. -/
structure ReadbufResult where
  wsi : Option Wsi
  trace : List Event
deriving DecidableEq, Repr

/-- `adopt_socket_readbuf` (adopt.c lines 315-378): early returns for a
missing slot, a null or empty buffer, or an unregistered slot
(`position_in_fds_table` still `LWS_NO_FDS_POS`); otherwise append the
bytes as an owned segment (allocation failure tears the slot down via
`lws_close_free_wsi`), place the slot on the pt pending list when its
buflist was empty, and, when a header-parsing context is held or can be
attached, synthesize `POLLIN` on the slot poll entry and drive
`lws_service_fd_tsi` synchronously (a closed report returns failure);
without a context the segment stays queued and handling is deferred. -/
def adopt_socket_readbuf (wsi0 : Option Wsi) (readbuf : Option (List Nat))
    (o : ReadbufOracle) : ReadbufResult :=
  match wsi0 with
  | none => ⟨none, []⟩
  | some w =>
    match readbuf with
    | none => ⟨some w, []⟩
    | some bs =>
      if bs.length = 0 then ⟨some w, []⟩
      else if w.position_in_fds_table = none then ⟨some w, []⟩
      else if !o.append_alloc_ok then ⟨none, [Event.closeFreeWsi]⟩
      else
        let w1 := { w with
          buflist := w.buflist ++ [bs],
          in_pt_buflist := w.in_pt_buflist || w.buflist.isEmpty }
        if w1.http_ah || o.attach_ok then
          if o.service_closed then
            ⟨none, [Event.pollinFlagged, Event.serviceFd]⟩
          else
            ⟨some { w1 with http_ah := true },
             [Event.pollinFlagged, Event.serviceFd]⟩
        else ⟨some w1, []⟩

/-- Modelled from the spec: `LWS_ADOPT_RAW_SOCKET_UDP`, the UDP-specific
adoption type flag (the flag enum lives in a header not under src).  It
marks a socket-kind descriptor to be bound through the raw-UDP role. -/
def LWS_ADOPT_RAW_SOCKET_UDP : AdoptType :=
  { socket := true, udp := true }

/-- Syscall-level events emitted by `lws_create_adopt_udp`. -/
inductive UdpEvent
  | getaddrinfoCall
  | socketCall
  | bindCall
  | adoptCall (t : AdoptType)
  | closeCall
deriving DecidableEq, Repr

/-- Outcomes of the calls made by `lws_create_adopt_udp`: the number of
address entries `getaddrinfo` yields (`none` = error), the per-entry
`socket()` success, the created descriptor value, the `bind()` result, and
the oracle threaded into the inner adoption. -/
structure UdpOracle where
  addrinfo : Option Nat := some 1
  socket_ok : List Bool := [true]
  sockfd : Nat := 0
  bind_ok : Bool := true
  adopt : Oracle := {}
deriving DecidableEq, Repr

/-- Result of `lws_create_adopt_udp`: the slot, the syscall-event trace,
and the inner adoption result when adoption was reached. -/
structure UdpResult where
  wsi : Option Wsi
  trace : List UdpEvent
  inner : Option AdoptResult
deriving DecidableEq, Repr

/-- `lws_create_adopt_udp` (adopt.c lines 380-449): resolve a local
address, create a UDP socket on the first address entry that accepts one,
call `bind()` only when `LWS_CAUDP_BIND` is among the flags (failure closes
the socket and returns), adopt the socket with the UDP-specific type flag,
and close the socket when adoption returned no slot. -/
def lws_create_adopt_udp (ctx : Ctx) (vh : Vhost) (port : Nat)
    (bind_flag : Bool) (protocol_name : Option String)
    (parent : Option Parent) (nid : Nat) (o : UdpOracle) : UdpResult :=
  match o.addrinfo with
  | none => ⟨none, [UdpEvent.getaddrinfoCall], none⟩
  | some nEntries =>
    let found := (List.range nEntries).find? (fun i => o.socket_ok.getD i false)
    let tried := match found with
      | some i => i + 1
      | none => nEntries
    let tr0 := UdpEvent.getaddrinfoCall ::
               (List.range tried).map (fun _ => UdpEvent.socketCall)
    match found with
    | none => ⟨none, tr0, none⟩
    | some _ =>
      if bind_flag && !o.bind_ok then
        ⟨none, tr0 ++ [UdpEvent.bindCall, UdpEvent.closeCall], none⟩
      else
        let tr1 := tr0 ++ (if bind_flag then [UdpEvent.bindCall] else [])
        let r := lws_adopt_descriptor_vhost ctx vh LWS_ADOPT_RAW_SOCKET_UDP
                   o.sockfd protocol_name parent nid o.adopt
        match r.wsi with
        | none =>
          ⟨none, tr1 ++ [UdpEvent.adoptCall LWS_ADOPT_RAW_SOCKET_UDP,
                         UdpEvent.closeCall], some r⟩
        | some w =>
          ⟨some w, tr1 ++ [UdpEvent.adoptCall LWS_ADOPT_RAW_SOCKET_UDP],
           some r⟩

/-! ## Theorems -/

/-- Invariant of the `lws_get_idlest_tsi` scan loop: either no element of
the remaining list is eligible and strictly below the running minimum, in
which case the scan returns the carried `hit`, or the scan returns the
absolute index of the first element attaining the minimum among eligible
elements strictly below the carried `lowest`. -/
theorem idlest_scan_spec (excl : Nat) (l : List Nat) :
    ∀ (idx lowest : Nat) (hit : Int),
      (idlest_scan excl l idx lowest hit = hit ∧
        ∀ m, m < l.length → l.getD m 0 = excl ∨ lowest ≤ l.getD m 0) ∨
      (∃ k, k < l.length ∧
        idlest_scan excl l idx lowest hit = ((idx + k : Nat) : Int) ∧
        l.getD k 0 ≠ excl ∧ l.getD k 0 < lowest ∧
        (∀ m, m < l.length → l.getD m 0 ≠ excl → l.getD k 0 ≤ l.getD m 0) ∧
        (∀ m, m < k → l.getD m 0 ≠ excl → l.getD k 0 < l.getD m 0)) := by
  induction l with
  | nil =>
    intro idx lowest hit
    left
    exact ⟨rfl, by simp⟩
  | cons c rest ih =>
    intro idx lowest hit
    by_cases hc : c ≠ excl ∧ c < lowest
    · have hstep : idlest_scan excl (c :: rest) idx lowest hit =
          idlest_scan excl rest (idx + 1) c (idx : Int) := by
        simp [idlest_scan, hc]
      rcases ih (idx + 1) c (idx : Int) with ⟨heq, hall⟩ |
        ⟨k, hk, heq, hke, hkl, hmin, hfirst⟩
      · right
        refine ⟨0, by simp, ?_, ?_, ?_, ?_, ?_⟩
        · rw [hstep, heq]; simp
        · simpa using hc.1
        · simpa using hc.2
        · intro m hm hme
          cases m with
          | zero => simp
          | succ m =>
            simp only [List.getD_cons_succ] at hme ⊢
            simp only [List.getD_cons_zero]
            rcases hall m (by simpa using hm) with h | h
            · exact absurd h hme
            · exact h
        · intro m hm; omega
      · right
        refine ⟨k + 1, by simpa using hk, ?_, ?_, ?_, ?_, ?_⟩
        · rw [hstep, heq]; congr 1; omega
        · simpa using hke
        · simp only [List.getD_cons_succ]; exact lt_trans hkl hc.2
        · intro m hm hme
          cases m with
          | zero =>
            simp only [List.getD_cons_succ, List.getD_cons_zero]
            exact le_of_lt hkl
          | succ m =>
            simp only [List.getD_cons_succ] at hme ⊢
            exact hmin m (by simpa using hm) hme
        · intro m hm hme
          cases m with
          | zero =>
            simp only [List.getD_cons_succ, List.getD_cons_zero]
            exact hkl
          | succ m =>
            simp only [List.getD_cons_succ] at hme ⊢
            exact hfirst m (by omega) hme
    · have hskip : c = excl ∨ lowest ≤ c := by
        by_cases h1 : c = excl
        · exact Or.inl h1
        · right
          rcases not_and_or.mp hc with h | h
          · exact absurd h1 (by simpa using h)
          · omega
      have hstep : idlest_scan excl (c :: rest) idx lowest hit =
          idlest_scan excl rest (idx + 1) lowest hit := by
        simp only [idlest_scan, if_neg hc]
      rcases ih (idx + 1) lowest hit with ⟨heq, hall⟩ |
        ⟨k, hk, heq, hke, hkl, hmin, hfirst⟩
      · left
        refine ⟨by rw [hstep, heq], ?_⟩
        intro m hm
        cases m with
        | zero => simpa using hskip
        | succ m =>
          simp only [List.getD_cons_succ]
          exact hall m (by simpa using hm)
      · right
        refine ⟨k + 1, by simpa using hk, ?_, ?_, ?_, ?_, ?_⟩
        · rw [hstep, heq]; congr 1; omega
        · simpa using hke
        · simpa using hkl
        · intro m hm hme
          cases m with
          | zero =>
            simp only [List.getD_cons_zero] at hme
            simp only [List.getD_cons_succ, List.getD_cons_zero]
            rcases hskip with h | h
            · exact absurd h hme
            · omega
          | succ m =>
            simp only [List.getD_cons_succ] at hme ⊢
            exact hmin m (by simpa using hm) hme
        · intro m hm hme
          cases m with
          | zero =>
            simp only [List.getD_cons_zero] at hme
            simp only [List.getD_cons_succ, List.getD_cons_zero]
            rcases hskip with h | h
            · exact absurd h hme
            · omega
          | succ m =>
            simp only [List.getD_cons_succ] at hme ⊢
            exact hfirst m (by omega) hme

/-- C3: for a context with per-thread capacity `C = fd_limit_per_thread`
(at least one) and per-thread fd counts below the unsigned-int ceiling (as
any C `int` value is), `lws_get_idlest_tsi` returns `-1` exactly when every
thread is excluded by the capacity test `fds_count != C - 1`, and otherwise
returns the index of a thread not excluded by that test whose fd count is
minimal among non-excluded threads, taking the first (lowest) index among
equal minima; such an index exists whenever some thread passes the test. -/
theorem claim3_idlest_thread_selector (fds : List Nat) (fdLimit : Nat)
    (hL : 1 ≤ fdLimit)
    (hbound : ∀ m, m < fds.length → fds.getD m 0 < UINT_MAX) :
    ((∀ m, m < fds.length → fds.getD m 0 = fdLimit - 1) →
        lws_get_idlest_tsi fds fdLimit = -1) ∧
    (lws_get_idlest_tsi fds fdLimit = -1 →
        ∀ m, m < fds.length → fds.getD m 0 = fdLimit - 1) ∧
    (∀ k : Nat, lws_get_idlest_tsi fds fdLimit = (k : Int) →
        k < fds.length ∧ fds.getD k 0 ≠ fdLimit - 1 ∧
        (∀ m, m < fds.length → fds.getD m 0 ≠ fdLimit - 1 →
          fds.getD k 0 ≤ fds.getD m 0) ∧
        (∀ m, m < k → fds.getD m 0 ≠ fdLimit - 1 →
          fds.getD k 0 < fds.getD m 0)) ∧
    ((∃ m, m < fds.length ∧ fds.getD m 0 ≠ fdLimit - 1) →
        ∃ k : Nat, lws_get_idlest_tsi fds fdLimit = (k : Int)) := by
  have hexcl : (if fdLimit = 0 then UINT_MAX else fdLimit - 1) = fdLimit - 1 := by
    rw [if_neg (by omega)]
  have hspec := idlest_scan_spec (fdLimit - 1) fds 0 UINT_MAX (-1)
  have hdef : lws_get_idlest_tsi fds fdLimit =
      idlest_scan (fdLimit - 1) fds 0 UINT_MAX (-1) := by
    rw [lws_get_idlest_tsi, hexcl]
  refine ⟨?_, ?_, ?_, ?_⟩
  · intro hall
    rcases hspec with ⟨heq, _⟩ | ⟨k, hk, _, hke, _, _, _⟩
    · rw [hdef, heq]
    · exact absurd (hall k hk) hke
  · intro hres m hm
    rcases hspec with ⟨_, hall⟩ | ⟨k, _, heq, _, _, _, _⟩
    · rcases hall m hm with h | h
      · exact h
      · exact absurd h (by have := hbound m hm; omega)
    · rw [hdef, heq] at hres; omega
  · intro k hres
    rcases hspec with ⟨heq, _⟩ | ⟨j, hj, heq, hje, _, hmin, hfirst⟩
    · rw [hdef, heq] at hres; omega
    · rw [hdef, heq] at hres
      have hkj : j = k := by omega
      subst hkj
      exact ⟨hj, hje, hmin, hfirst⟩
  · intro hex
    rcases hspec with ⟨_, hall⟩ | ⟨k, _, heq, _, _, _, _⟩
    · rcases hex with ⟨m, hm, hme⟩
      rcases hall m hm with h | h
      · exact absurd h hme
      · exact absurd h (by have := hbound m hm; omega)
    · exact ⟨k, by rw [hdef, heq]; simp⟩

/-- Witness for C3 at a concrete table: three threads with counts
`[3, 1, 1]` and capacity `4`; the selector returns thread `1`, the first of
the two equal minima, and would return `-1` only if every thread sat at
`capacity - 1`. -/
theorem claim3_witness :
    (1 ≤ 4 ∧ ∀ m, m < [3, 1, 1].length → [3, 1, 1].getD m 0 < UINT_MAX) ∧
    lws_get_idlest_tsi [3, 1, 1] 4 = (1 : Nat) ∧
    ([3, 1, 1].getD 1 0 ≠ 3 ∧
      ∀ m, m < 1 → [3, 1, 1].getD m 0 ≠ 3 →
        [3, 1, 1].getD 1 0 < [3, 1, 1].getD m 0) := by
  refine ⟨⟨by omega, by decide⟩, by decide, ?_⟩
  have h := claim3_idlest_thread_selector [3, 1, 1] 4 (by omega) (by decide)
  have h3 := h.2.2.1 1 (by decide)
  exact ⟨h3.2.1, h3.2.2.2⟩

/-- Helper: the successful-allocation equation for
`lws_create_new_server_wsi`. -/
theorem create_wsi_success (vh : Vhost) (ctx : Ctx) (fixed : Int)
    (nid : Nat) (hn : 0 ≤ effective_tsi ctx fixed) :
    lws_create_new_server_wsi vh ctx fixed true nid =
      ⟨some { id := nid, server_flag := true,
              tsi := (effective_tsi ctx fixed).toNat,
              vhost_bound := true, context_bound := true,
              pending_timeout_cleared := true, rxflow_allow := true,
              state := LwsState.unconnected, hdr_parsing_completed := false,
              tls_use_ssl := vh.ssl_enabled, protocol := some 0,
              user_space := false, desc := none,
              position_in_fds_table := none },
       ctx.count_wsi_allocated + 1, [Event.wsiCreateCb true]⟩ := by
  rw [lws_create_new_server_wsi]
  simp only [if_neg (by omega : ¬ effective_tsi ctx fixed < 0)]
  simp

/-- C7: when a thread index is available (the explicitly requested one when
nonnegative, otherwise the selector choice) and allocation succeeds,
`lws_create_new_server_wsi` returns a slot equal to the zero-initialized
record updated at exactly the assigned fields: the server flag, the chosen
thread index, the vhost binding, the cleared pending timeout, rx-flow
allow, state `unconnected`, the vhost TLS setting, the protocol pointer at
the vhost index-0 default, no user memory, an invalid descriptor, and the
unassigned poll-table sentinel; the live-connection counter is incremented
by one and the default-protocol object-created callback fires with null
user memory. -/
theorem claim7_create_new_server_wsi (vh : Vhost) (ctx : Ctx) (fixed : Int)
    (nid : Nat) (hn : 0 ≤ effective_tsi ctx fixed) :
    lws_create_new_server_wsi vh ctx fixed true nid =
      ⟨some { id := nid, server_flag := true,
              tsi := (effective_tsi ctx fixed).toNat,
              vhost_bound := true, context_bound := true,
              pending_timeout_cleared := true, rxflow_allow := true,
              state := LwsState.unconnected, hdr_parsing_completed := false,
              tls_use_ssl := vh.ssl_enabled, protocol := some 0,
              user_space := false, desc := none,
              position_in_fds_table := none },
       ctx.count_wsi_allocated + 1, [Event.wsiCreateCb true]⟩ :=
  create_wsi_success vh ctx fixed nid hn

/-- Witness for C7: one thread with no installed fds, capacity 8, no fixed
index; the allocator picks thread 0 and the hypothesis of the theorem is
discharged at that input. -/
theorem claim7_witness :
    0 ≤ effective_tsi ⟨[0], 8, 5, 0⟩ (-1) ∧
    lws_create_new_server_wsi ⟨"vh", [⟨"default", 0⟩], false⟩
        ⟨[0], 8, 5, 0⟩ (-1) true 7 =
      ⟨some { id := 7, server_flag := true, tsi := 0, vhost_bound := true,
              context_bound := true, pending_timeout_cleared := true,
              rxflow_allow := true, state := LwsState.unconnected,
              hdr_parsing_completed := false, tls_use_ssl := false,
              protocol := some 0, user_space := false, desc := none,
              position_in_fds_table := none },
       6, [Event.wsiCreateCb true]⟩ := by
  refine ⟨by decide, ?_⟩
  have h := claim7_create_new_server_wsi ⟨"vh", [⟨"default", 0⟩], false⟩
    ⟨[0], 8, 5, 0⟩ (-1) 7 (by decide)
  simpa using h

/-- C2 counterexample: with peer limits compiled in, a ceiling of 2 and a
peer record already holding 2 live connections, the socket adoption at this
concrete input is rejected with no slot created, yet the socket descriptor
is closed zero times — refuting the claim that the descriptor is closed. -/
theorem claim2_counterexample :
    (lws_adopt_descriptor_vhost ⟨[0], 8, 5, 2⟩ ⟨"vh", [⟨"default", 0⟩], false⟩
        { socket := true } 9 none none 1 { peer := some 2 }).exit =
      ExitPath.rejected ∧
    (lws_adopt_descriptor_vhost ⟨[0], 8, 5, 2⟩ ⟨"vh", [⟨"default", 0⟩], false⟩
        { socket := true } 9 none none 1 { peer := some 2 }).closes = 0 := by
  decide

/-- C2 amended: for every socket-type adoption whose remote peer record
already reached the configured nonzero ceiling, `lws_adopt_descriptor_vhost`
rejects the adoption before creating any slot and returns failure, leaving
the live-connection counter, the parent child list and the descriptor
untouched — the socket descriptor is not closed by this path. -/
theorem claim2_amended_peer_limit (ctx : Ctx) (vh : Vhost)
    (type0 : AdoptType) (fd : Nat) (nm : Option String)
    (parent : Option Parent) (nid : Nat) (o : Oracle) (c : Nat)
    (hsock : type0.socket = true) (hpeer : o.peer = some c)
    (hlim : ctx.ip_limit_wsi ≠ 0) (hover : ctx.ip_limit_wsi ≤ c) :
    lws_adopt_descriptor_vhost ctx vh type0 fd nm parent nid o =
      { wsi := none, count := ctx.count_wsi_allocated,
        parent_child := child_list0 parent, closes := 0,
        exit := ExitPath.rejected, trace := [] } := by
  have h : peer_over_limit ctx type0 o = true := by
    simp [peer_over_limit, hsock, hpeer, hlim, hover]
  rw [lws_adopt_descriptor_vhost.eq_def]
  simp only [h, if_true, Bool.true_eq, if_pos]

/-- Witness for C2 amended, at a ceiling of 3 with a peer record holding 4
connections. -/
theorem claim2_amended_witness :
    lws_adopt_descriptor_vhost ⟨[1], 8, 9, 3⟩ ⟨"vh", [⟨"default", 0⟩], false⟩
        { socket := true } 4 none (some ⟨0, [5]⟩) 2 { peer := some 4 } =
      { wsi := none, count := 9, parent_child := [5], closes := 0,
        exit := ExitPath.rejected, trace := [] } := by
  have h := claim2_amended_peer_limit ⟨[1], 8, 9, 3⟩
    ⟨"vh", [⟨"default", 0⟩], false⟩ { socket := true } 4 none
    (some ⟨0, [5]⟩) 2 { peer := some 4 } 4 rfl rfl (by decide) (by decide)
  simpa using h

/-- C6: an adoption call naming a protocol absent from the vhost table
(reaching that check: admission passed, the slot was allocated, the
descriptor was set non-blocking) returns failure through the full `bail:`
teardown: no slot is returned (so no slot is left on the default protocol),
the descriptor is closed exactly once, the live-connection counter is back
at its pre-call value, and the parent child list is restored. -/
theorem claim6_unknown_protocol_name (ctx : Ctx) (vh : Vhost)
    (type0 : AdoptType) (fd : Nat) (nm : String) (parent : Option Parent)
    (nid : Nat) (o : Oracle)
    (hreject : peer_over_limit ctx type0 o = false)
    (halloc : o.alloc_ok = true)
    (htsi : 0 ≤ effective_tsi ctx (match parent with
      | some p => (p.tsi : Int)
      | none => -1))
    (hnb : o.nonblocking_ok = true)
    (hname : vh.protocols.findIdx? (fun pr => pr.name == nm) = none) :
    (lws_adopt_descriptor_vhost ctx vh type0 fd (some nm) parent nid o).wsi
        = none ∧
    (lws_adopt_descriptor_vhost ctx vh type0 fd (some nm) parent nid o).exit
        = ExitPath.bailPath ∧
    (lws_adopt_descriptor_vhost ctx vh type0 fd (some nm) parent nid o).closes
        = 1 ∧
    (lws_adopt_descriptor_vhost ctx vh type0 fd (some nm) parent nid o).count
        = ctx.count_wsi_allocated ∧
    (∀ p, parent = some p →
      (lws_adopt_descriptor_vhost ctx vh type0 fd (some nm) parent nid
          o).parent_child = p.child_list) := by
  rw [lws_adopt_descriptor_vhost.eq_def]
  simp only [hreject, Bool.false_eq_true, if_false]
  rw [halloc]
  cases parent with
  | none =>
    rw [create_wsi_success vh ctx (-1) nid (by simpa using htsi)]
    simp [adopt_linked, adopt_select_protocol, hname, hnb, bail_result]
  | some p =>
    rw [create_wsi_success vh ctx (p.tsi : Int) nid (by simpa using htsi)]
    simp [adopt_linked, adopt_select_protocol, hname, hnb, bail_result]

/-- Witness for C6: a vhost whose table holds only the protocol named
`default`, adopted naming the absent protocol `missing`. -/
theorem claim6_witness :
    peer_over_limit ⟨[0], 8, 5, 0⟩ { socket := true } {} = false ∧
    ([⟨"default", 0⟩] : List Protocol).findIdx?
        (fun pr => pr.name == "missing") = none ∧
    (lws_adopt_descriptor_vhost ⟨[0], 8, 5, 0⟩ ⟨"vh", [⟨"default", 0⟩], false⟩
        { socket := true } 9 (some "missing") (some ⟨0, [4]⟩) 1 {}).closes
        = 1 ∧
    (lws_adopt_descriptor_vhost ⟨[0], 8, 5, 0⟩ ⟨"vh", [⟨"default", 0⟩], false⟩
        { socket := true } 9 (some "missing") (some ⟨0, [4]⟩) 1 {}).count
        = 5 ∧
    (lws_adopt_descriptor_vhost ⟨[0], 8, 5, 0⟩ ⟨"vh", [⟨"default", 0⟩], false⟩
        { socket := true } 9 (some "missing") (some ⟨0, [4]⟩) 1
        {}).parent_child = [4] := by
  refine ⟨by decide, by decide, ?_, ?_, ?_⟩
  · exact (claim6_unknown_protocol_name ⟨[0], 8, 5, 0⟩
      ⟨"vh", [⟨"default", 0⟩], false⟩ { socket := true } 9 "missing"
      (some ⟨0, [4]⟩) 1 {} (by decide) rfl (by decide) rfl (by decide)).2.2.1
  · exact (claim6_unknown_protocol_name ⟨[0], 8, 5, 0⟩
      ⟨"vh", [⟨"default", 0⟩], false⟩ { socket := true } 9 "missing"
      (some ⟨0, [4]⟩) 1 {} (by decide) rfl (by decide) rfl (by decide)).2.2.2.1
  · exact (claim6_unknown_protocol_name ⟨[0], 8, 5, 0⟩
      ⟨"vh", [⟨"default", 0⟩], false⟩ { socket := true } 9 "missing"
      (some ⟨0, [4]⟩) 1 {} (by decide) rfl (by decide) rfl
      (by decide)).2.2.2.2 ⟨0, [4]⟩ rfl

/-- Helper: the `fail:` label outcome for a socket-type adoption. -/
theorem fail_result_socket (cnt : Nat) (pchild : List Nat) (wid : Nat)
    (type1 : AdoptType) (tr : List Event) (h : type1.socket = true) :
    fail_result cnt pchild wid type1 tr =
      ⟨none, cnt - 1, pchild.filter (fun c => c != wid), 1,
       ExitPath.failPath, tr ++ [Event.closeFreeWsi]⟩ := by
  simp [fail_result, lws_close_free_wsi, h]

/-- Helper: the `fail:` label outcome for a file-type adoption: no cleanup
of any kind. -/
theorem fail_result_file (cnt : Nat) (pchild : List Nat) (wid : Nat)
    (type1 : AdoptType) (tr : List Event) (h : type1.socket = false) :
    fail_result cnt pchild wid type1 tr =
      ⟨none, cnt, pchild, 0, ExitPath.failPath, tr⟩ := by
  simp [fail_result, h]

/-- Helper: the two outcomes of `adopt_finish`. -/
theorem adopt_finish_cases (cnt : Nat) (pchild : List Nat)
    (type1 : AdoptType) (w : Wsi) (tr : List Event) (o : Oracle) :
    adopt_finish cnt pchild type1 w tr o =
      fail_result cnt pchild w.id type1 (tr ++ [Event.newClientCb]) ∨
    adopt_finish cnt pchild type1 w tr o =
      ⟨some { w with undergoing_init_from_other_pt := false }, cnt, pchild,
       0, ExitPath.okPath,
       tr ++ [Event.newClientCb, Event.bindFinish, Event.clearInitFlag,
              Event.cancelService]⟩ := by
  cases hcb : o.callback_ok
  · left; simp [adopt_finish, hcb]
  · right; simp [adopt_finish, hcb]

/-- Helper: the outcomes of `adopt_register`: either the `fail:` label, or
success with the slot registered (the inserted-into-fds event appears
exactly when the TLS handoff was not taken) and the init flag cleared. -/
theorem adopt_register_cases (cnt : Nat) (pchild : List Nat)
    (type1 : AdoptType) (w : Wsi) (tr : List Event) (o : Oracle) :
    (∃ tr2, adopt_register cnt pchild type1 w tr o =
        fail_result cnt pchild w.id type1 tr2) ∨
    (∃ w2 ins, (ins = ([] : List Event) ∨ ins = [Event.insertFds]) ∧
      w2.undergoing_init_from_other_pt = false ∧ w2.id = w.id ∧
      adopt_register cnt pchild type1 w tr o =
        ⟨some w2, cnt, pchild, 0, ExitPath.okPath,
         tr ++ [Event.setInitFlag] ++ ins ++
         [Event.newClientCb, Event.bindFinish, Event.clearInitFlag,
          Event.cancelService]⟩) := by
  rw [adopt_register]
  cases hssl : type1.allow_ssl
  · simp only [Bool.not_false, if_true, Bool.false_eq_true, if_false]
    cases hins : o.insert_ok
    · left
      exact ⟨tr ++ [Event.setInitFlag], by simp [hins]⟩
    · simp only [hins, Bool.not_true, Bool.false_eq_true, if_false]
      rcases adopt_finish_cases cnt pchild type1
          { w with undergoing_init_from_other_pt := true,
                   position_in_fds_table := some o.insert_pos }
          (tr ++ [Event.setInitFlag] ++ [Event.insertFds]) o with h | h
      · left
        refine ⟨tr ++ [Event.setInitFlag] ++ [Event.insertFds] ++
          [Event.newClientCb], ?_⟩
        simpa using h
      · right
        refine ⟨{ w with
            undergoing_init_from_other_pt := false,
            position_in_fds_table := some o.insert_pos },
          [Event.insertFds], Or.inr rfl, rfl, rfl, ?_⟩
        simpa using h
  · simp only [Bool.not_true, Bool.false_eq_true, if_false]
    cases hsslok : o.ssl_ok
    · left
      exact ⟨tr ++ [Event.setInitFlag], by simp [hsslok]⟩
    · simp only [hsslok, Bool.not_true, Bool.false_eq_true, if_false]
      rcases adopt_finish_cases cnt pchild type1
          { w with undergoing_init_from_other_pt := true }
          (tr ++ [Event.setInitFlag]) o with h | h
      · left
        exact ⟨tr ++ [Event.setInitFlag] ++ [Event.newClientCb],
          by simpa using h⟩
      · right
        refine ⟨{ w with undergoing_init_from_other_pt := false }, [],
          Or.inl rfl, rfl, rfl, ?_⟩
        simpa using h

/-- Helper: the outcomes of `adopt_accept_hook`: an accept-hook rejection
goes to `fail:`, otherwise as `adopt_register`. -/
theorem adopt_accept_hook_cases (cnt : Nat) (pchild : List Nat)
    (type1 : AdoptType) (w : Wsi) (tr : List Event) (o : Oracle) :
    (∃ tr2, adopt_accept_hook cnt pchild type1 w tr o =
        fail_result cnt pchild w.id type1 tr2) ∨
    (∃ w2 ins, (ins = ([] : List Event) ∨ ins = [Event.insertFds]) ∧
      w2.undergoing_init_from_other_pt = false ∧ w2.id = w.id ∧
      adopt_accept_hook cnt pchild type1 w tr o =
        ⟨some w2, cnt, pchild, 0, ExitPath.okPath,
         tr ++ [Event.setInitFlag] ++ ins ++
         [Event.newClientCb, Event.bindFinish, Event.clearInitFlag,
          Event.cancelService]⟩) := by
  cases hacc : o.accept_present && !o.accept_ok
  · have h : adopt_accept_hook cnt pchild type1 w tr o =
        adopt_register cnt pchild type1 w tr o := by
      simp [adopt_accept_hook, hacc]
    rw [h]
    exact adopt_register_cases cnt pchild type1 w tr o
  · left
    exact ⟨tr, by simp [adopt_accept_hook, hacc]⟩

/-- Helper: the outcomes of `adopt_bind_role`: a failed pre-phase role bind
goes to `bail:` with the carried state untouched; otherwise the pipeline
proceeds with the masked type flags, whose socket bit is unchanged. -/
theorem adopt_bind_role_cases (vh : Vhost) (cnt : Nat)
    (parent : Option Parent) (pchild : List Nat) (type0 : AdoptType)
    (w : Wsi) (tr : List Event) (o : Oracle) :
    adopt_bind_role vh cnt parent pchild type0 w tr o =
        bail_result cnt parent w tr ∨
    (∃ type1 tr2, type1.socket = type0.socket ∧
      adopt_bind_role vh cnt parent pchild type0 w tr o =
        fail_result cnt pchild w.id type1 tr2) ∨
    (∃ w2 ins, (ins = ([] : List Event) ∨ ins = [Event.insertFds]) ∧
      w2.undergoing_init_from_other_pt = false ∧ w2.id = w.id ∧
      adopt_bind_role vh cnt parent pchild type0 w tr o =
        ⟨some w2, cnt, pchild, 0, ExitPath.okPath,
         tr ++ [Event.setInitFlag] ++ ins ++
         [Event.newClientCb, Event.bindFinish, Event.clearInitFlag,
          Event.cancelService]⟩) := by
  rw [adopt_bind_role]
  cases hbind : o.bind_ok
  · left; simp [hbind]
  · simp only [hbind, Bool.not_true, Bool.false_eq_true, if_false]
    by_cases hmask : (!vh.ssl_enabled || !type0.socket) = true
    · simp only [hmask, if_true]
      rcases adopt_accept_hook_cases cnt pchild
          { type0 with allow_ssl := false } w tr o with ⟨tr2, h⟩ | h
      · exact Or.inr (Or.inl ⟨{ type0 with allow_ssl := false }, tr2, rfl, h⟩)
      · exact Or.inr (Or.inr h)
    · simp only [hmask, if_false]
      rcases adopt_accept_hook_cases cnt pchild type0 w tr o with
        ⟨tr2, h⟩ | h
      · exact Or.inr (Or.inl ⟨type0, tr2, rfl, h⟩)
      · exact Or.inr (Or.inr h)

/-- Helper: the outcomes of the pipeline tail from protocol selection
onwards: a `bail:` exit (unknown name, user-memory failure, role-bind
failure) carrying a slot whose sibling list and identity match the carried
slot, a `fail:` exit, or success. -/
theorem adopt_select_protocol_cases (vh : Vhost) (cnt : Nat)
    (parent : Option Parent) (pchild : List Nat) (type0 : AdoptType)
    (nm : Option String) (w : Wsi) (tr : List Event) (o : Oracle) :
    (∃ w3, adopt_select_protocol vh cnt parent pchild type0 nm w tr o =
        bail_result cnt parent w3 tr ∧
      w3.sibling_list = w.sibling_list ∧ w3.id = w.id) ∨
    (∃ type1 tr2, type1.socket = type0.socket ∧
      adopt_select_protocol vh cnt parent pchild type0 nm w tr o =
        fail_result cnt pchild w.id type1 tr2) ∨
    (∃ w2 ins, (ins = ([] : List Event) ∨ ins = [Event.insertFds]) ∧
      w2.undergoing_init_from_other_pt = false ∧ w2.id = w.id ∧
      adopt_select_protocol vh cnt parent pchild type0 nm w tr o =
        ⟨some w2, cnt, pchild, 0, ExitPath.okPath,
         tr ++ [Event.setInitFlag] ++ ins ++
         [Event.newClientCb, Event.bindFinish, Event.clearInitFlag,
          Event.cancelService]⟩) := by
  rw [adopt_select_protocol.eq_def]
  cases nm with
  | none =>
    rcases adopt_bind_role_cases vh cnt parent pchild type0 w tr o with
      h | h | h
    · exact Or.inl ⟨w, h, rfl, rfl⟩
    · exact Or.inr (Or.inl h)
    · exact Or.inr (Or.inr h)
  | some s =>
    cases hfind : vh.protocols.findIdx? (fun pr => pr.name == s) with
    | none =>
      simp only [hfind]
      exact Or.inl ⟨w, rfl, rfl, rfl⟩
    | some i =>
      simp only [hfind]
      by_cases hsz :
          (vh.protocols.getD i ⟨"", 0⟩).per_session_data_size ≠ 0
      · simp only [if_pos hsz]
        cases husp : o.user_space_ok
        · simp only [husp, Bool.not_false, if_true]
          exact Or.inl ⟨{ w with protocol := some i }, rfl, rfl, rfl⟩
        · simp only [husp, Bool.not_true, Bool.false_eq_true, if_false]
          rcases adopt_bind_role_cases vh cnt parent pchild type0
              { w with protocol := some i, user_space := true } tr o with
            h | h | h
          · exact Or.inl ⟨{ w with protocol := some i, user_space := true },
              h, rfl, rfl⟩
          · rcases h with ⟨type1, tr2, hty, h⟩
            exact Or.inr (Or.inl ⟨type1, tr2, hty, h⟩)
          · rcases h with ⟨w2, ins, hins, hflag, hid, h⟩
            exact Or.inr (Or.inr ⟨w2, ins, hins, hflag, hid, h⟩)
      · simp only [if_neg hsz]
        rcases adopt_bind_role_cases vh cnt parent pchild type0
            { w with protocol := some i } tr o with h | h | h
        · exact Or.inl ⟨{ w with protocol := some i }, h, rfl, rfl⟩
        · rcases h with ⟨type1, tr2, hty, h⟩
          exact Or.inr (Or.inl ⟨type1, tr2, hty, h⟩)
        · rcases h with ⟨w2, ins, hins, hflag, hid, h⟩
          exact Or.inr (Or.inr ⟨w2, ins, hins, hflag, hid, h⟩)

/-- Helper: `lws_create_new_server_wsi` with a failing allocation returns
no slot and leaves the counter untouched. -/
theorem create_wsi_alloc_fail (vh : Vhost) (ctx : Ctx) (fixed : Int)
    (nid : Nat) :
    lws_create_new_server_wsi vh ctx fixed false nid =
      ⟨none, ctx.count_wsi_allocated, []⟩ := by
  rw [lws_create_new_server_wsi]
  split
  · rfl
  · rfl

/-- Helper: `lws_create_new_server_wsi` with no thread capacity returns no
slot and leaves the counter untouched. -/
theorem create_wsi_no_capacity (vh : Vhost) (ctx : Ctx) (fixed : Int)
    (b : Bool) (nid : Nat) (hn : effective_tsi ctx fixed < 0) :
    lws_create_new_server_wsi vh ctx fixed b nid =
      ⟨none, ctx.count_wsi_allocated, []⟩ := by
  rw [lws_create_new_server_wsi]
  simp only [if_pos hn]

/-- Helper: the outcomes of `adopt_linked`, the pipeline once the slot
exists and is linked: a `bail:` teardown restoring the sibling list and
counter with one close; a socket `fail:` teardown through
`lws_close_free_wsi`; a file `fail:` return performing no cleanup; or
success with a fixed trace tail. -/
theorem adopt_linked_cases (vh : Vhost) (cnt : Nat) (type0 : AdoptType)
    (fd : Nat) (nm : Option String) (parent : Option Parent) (w1 : Wsi)
    (tr1 : List Event) (o : Oracle) :
    adopt_linked vh cnt type0 fd nm parent w1 tr1 o =
      ⟨none, cnt - 1,
       (match parent with
        | some _ => w1.sibling_list
        | none => []),
       1, ExitPath.bailPath, tr1⟩ ∨
    (type0.socket = true ∧ ∃ tr2,
      adopt_linked vh cnt type0 fd nm parent w1 tr1 o =
        ⟨none, cnt - 1,
         (child_linked parent w1.id).filter (fun c => c != w1.id), 1,
         ExitPath.failPath, tr2 ++ [Event.closeFreeWsi]⟩) ∨
    (type0.socket = false ∧ ∃ tr2,
      adopt_linked vh cnt type0 fd nm parent w1 tr1 o =
        ⟨none, cnt, child_linked parent w1.id, 0, ExitPath.failPath,
         tr2⟩) ∨
    (∃ w2 ins, (ins = ([] : List Event) ∨ ins = [Event.insertFds]) ∧
      w2.undergoing_init_from_other_pt = false ∧ w2.id = w1.id ∧
      adopt_linked vh cnt type0 fd nm parent w1 tr1 o =
        ⟨some w2, cnt, child_linked parent w1.id, 0, ExitPath.okPath,
         tr1 ++ [Event.setInitFlag] ++ ins ++
         [Event.newClientCb, Event.bindFinish, Event.clearInitFlag,
          Event.cancelService]⟩) := by
  rw [adopt_linked]
  cases hnb : o.nonblocking_ok with
  | false =>
    left
    cases parent <;> simp [bail_result]
  | true =>
    simp only [hnb, Bool.not_true, Bool.false_eq_true, if_false]
    rcases adopt_select_protocol_cases vh cnt parent
        (child_linked parent w1.id) type0 nm { w1 with desc := some fd }
        tr1 o with ⟨w3, heq, hsib, hid⟩ | ⟨type1, tr2, hty, heq⟩ |
      ⟨w2, ins, hins, hflag, hid, heq⟩
    · left
      rw [heq]
      simp only [Wsi.mk.injEq] at hsib
      cases parent <;> simp [bail_result, hsib]
    · cases hsock : type0.socket with
      | true =>
        right; left
        rw [hsock] at hty
        rw [heq, fail_result_socket _ _ _ _ _ hty]
        exact ⟨rfl, tr2, by simp⟩
      | false =>
        right; right; left
        rw [hsock] at hty
        rw [heq, fail_result_file _ _ _ _ _ hty]
        exact ⟨rfl, tr2, by simp⟩
    · right; right; right
      rw [heq]
      exact ⟨w2, ins, hins, hflag, by simpa using hid, by simp⟩

/-- Helper: every result of `lws_adopt_descriptor_vhost` has one of six
shapes, one per return site: the silent peer rejection; the no-slot return
(closing a socket descriptor but not a file one); the `bail:` teardown
(counter restored, parent child list restored, one close); the socket
`fail:` teardown through `lws_close_free_wsi` (counter restored, slot
filtered out of the child list, one close); the file `fail:` return (no
cleanup: counter still raised, slot still linked, no close); and success
(slot returned with the init flag clear, fixed trace tail). -/
theorem adopt_descriptor_cases (ctx : Ctx) (vh : Vhost) (type0 : AdoptType)
    (fd : Nat) (nm : Option String) (parent : Option Parent) (nid : Nat)
    (o : Oracle) :
    lws_adopt_descriptor_vhost ctx vh type0 fd nm parent nid o =
      ⟨none, ctx.count_wsi_allocated, child_list0 parent, 0,
       ExitPath.rejected, []⟩ ∨
    lws_adopt_descriptor_vhost ctx vh type0 fd nm parent nid o =
      ⟨none, ctx.count_wsi_allocated, child_list0 parent,
       if type0.socket then 1 else 0, ExitPath.noSlot, []⟩ ∨
    (∃ tr2, lws_adopt_descriptor_vhost ctx vh type0 fd nm parent nid o =
        ⟨none, ctx.count_wsi_allocated, child_list0 parent, 1,
         ExitPath.bailPath, tr2⟩) ∨
    (type0.socket = true ∧ ∃ tr2,
      lws_adopt_descriptor_vhost ctx vh type0 fd nm parent nid o =
        ⟨none, ctx.count_wsi_allocated,
         (child_list0 parent).filter (fun c => c != nid), 1,
         ExitPath.failPath, tr2 ++ [Event.closeFreeWsi]⟩) ∨
    (type0.socket = false ∧ ∃ tr2,
      lws_adopt_descriptor_vhost ctx vh type0 fd nm parent nid o =
        ⟨none, ctx.count_wsi_allocated + 1, child_linked parent nid, 0,
         ExitPath.failPath, tr2⟩) ∨
    (∃ w2 pre ins,
      (pre = [Event.wsiCreateCb true] ∨
        pre = [Event.wsiCreateCb true, Event.peerAdd]) ∧
      (ins = ([] : List Event) ∨ ins = [Event.insertFds]) ∧
      w2.undergoing_init_from_other_pt = false ∧ w2.id = nid ∧
      lws_adopt_descriptor_vhost ctx vh type0 fd nm parent nid o =
        ⟨some w2, ctx.count_wsi_allocated + 1, child_linked parent nid, 0,
         ExitPath.okPath,
         pre ++ [Event.setInitFlag] ++ ins ++
         [Event.newClientCb, Event.bindFinish, Event.clearInitFlag,
          Event.cancelService]⟩) := by
  rw [lws_adopt_descriptor_vhost.eq_def]
  cases hrej : peer_over_limit ctx type0 o
  case true =>
    left
    simp
  case false =>
    simp only [Bool.false_eq_true, if_false]
    cases parent with
    | none =>
      cases halloc : o.alloc_ok with
      | false =>
        rw [create_wsi_alloc_fail]
        right; left
        simp [child_list0]
      | true =>
        by_cases hn : effective_tsi ctx (-1) < 0
        · rw [create_wsi_no_capacity vh ctx (-1) true nid hn]
          right; left
          simp [child_list0]
        · obtain ⟨w0, hw0, hid0, hsib0⟩ :
            ∃ w0, lws_create_new_server_wsi vh ctx (-1) true nid =
                ⟨some w0, ctx.count_wsi_allocated + 1,
                 [Event.wsiCreateCb true]⟩ ∧
              w0.id = nid ∧ w0.sibling_list = [] :=
            ⟨_, create_wsi_success vh ctx (-1) nid (by omega), rfl, rfl⟩
          rw [hw0]
          dsimp only
          rcases adopt_linked_cases vh (ctx.count_wsi_allocated + 1) type0
              fd nm none w0
              ([Event.wsiCreateCb true] ++
               (if type0.socket && o.peer.isSome then [Event.peerAdd]
                else [])) o with h | ⟨hsock, tr2, h⟩ | ⟨hsock, tr2, h⟩ |
            ⟨w2, ins, hins, hflag, hid, h⟩
          · right; right; left
            exact ⟨[Event.wsiCreateCb true] ++
              (if type0.socket && o.peer.isSome then [Event.peerAdd]
               else []), by rw [h]; simp [child_list0]⟩
          · right; right; right; left
            exact ⟨hsock, tr2,
              by rw [h]; simp [child_linked, child_list0]⟩
          · right; right; right; right; left
            exact ⟨hsock, tr2, by rw [h]; simp [child_linked]⟩
          · right; right; right; right; right
            refine ⟨w2, [Event.wsiCreateCb true] ++
                (if type0.socket && o.peer.isSome then [Event.peerAdd]
                 else []), ins, ?_, hins, hflag,
              by rw [hid, hid0], ?_⟩
            · cases hc : type0.socket && o.peer.isSome
              · left; simp [hc]
              · right; simp [hc]
            · rw [h]
              simp [child_linked]
    | some p =>
      cases halloc : o.alloc_ok with
      | false =>
        rw [create_wsi_alloc_fail]
        right; left
        simp [child_list0]
      | true =>
        by_cases hn : effective_tsi ctx (p.tsi : Int) < 0
        · rw [create_wsi_no_capacity vh ctx (p.tsi : Int) true nid hn]
          right; left
          simp [child_list0]
        · obtain ⟨w0, hw0, hid0⟩ :
            ∃ w0, lws_create_new_server_wsi vh ctx (p.tsi : Int) true nid =
                ⟨some w0, ctx.count_wsi_allocated + 1,
                 [Event.wsiCreateCb true]⟩ ∧
              w0.id = nid :=
            ⟨_, create_wsi_success vh ctx (p.tsi : Int) nid (by omega), rfl⟩
          rw [hw0]
          dsimp only
          rcases adopt_linked_cases vh (ctx.count_wsi_allocated + 1) type0
              fd nm (some p)
              { w0 with has_parent := true, sibling_list := p.child_list }
              ([Event.wsiCreateCb true] ++
               (if type0.socket && o.peer.isSome then [Event.peerAdd]
                else [])) o with h | ⟨hsock, tr2, h⟩ | ⟨hsock, tr2, h⟩ |
            ⟨w2, ins, hins, hflag, hid, h⟩
          · right; right; left
            exact ⟨[Event.wsiCreateCb true] ++
              (if type0.socket && o.peer.isSome then [Event.peerAdd]
               else []), by rw [h]; simp [child_list0]⟩
          · right; right; right; left
            exact ⟨hsock, tr2,
              by rw [h]; simp [child_linked, child_list0, hid0]⟩
          · right; right; right; right; left
            exact ⟨hsock, tr2, by rw [h]; simp [child_linked, hid0]⟩
          · right; right; right; right; right
            refine ⟨w2, [Event.wsiCreateCb true] ++
                (if type0.socket && o.peer.isSome then [Event.peerAdd]
                 else []), ins, ?_, hins, hflag, ?_, ?_⟩
            · cases hc : type0.socket && o.peer.isSome
              · left; simp [hc]
              · right; simp [hc]
            · rw [hid]; simp [hid0]
            · rw [h]
              simp [child_linked, hid0]

/-- How many times event `e` occurs in trace `t`. -/
def countEv (t : List Event) (e : Event) : Nat :=
  (t.filter (fun x => x == e)).length

/-- Index of the first occurrence of event `e` in trace `t` (the length of
`t` when absent). -/
def idxEv (t : List Event) (e : Event) : Nat :=
  t.findIdx (fun x => x == e)

/-- C1 counterexample: a file-descriptor adoption (live-connection counter
at 5 before the call) with a parent and an injected failure at the
new-client protocol callback (a step inside the 3..9 range) returns
failure, yet the counter stays at 6, the failed slot (id 1) is still in
the parent child list, and the descriptor was closed zero times — refuting
the claim for file-type descriptors. -/
theorem claim1_counterexample :
    (lws_adopt_descriptor_vhost ⟨[0], 8, 5, 0⟩ ⟨"vh", [⟨"default", 0⟩], false⟩
        { socket := false } 9 none (some ⟨0, []⟩) 1
        { callback_ok := false }).wsi = none ∧
    (lws_adopt_descriptor_vhost ⟨[0], 8, 5, 0⟩ ⟨"vh", [⟨"default", 0⟩], false⟩
        { socket := false } 9 none (some ⟨0, []⟩) 1
        { callback_ok := false }).exit = ExitPath.failPath ∧
    (lws_adopt_descriptor_vhost ⟨[0], 8, 5, 0⟩ ⟨"vh", [⟨"default", 0⟩], false⟩
        { socket := false } 9 none (some ⟨0, []⟩) 1
        { callback_ok := false }).count = 6 ∧
    1 ∈ (lws_adopt_descriptor_vhost ⟨[0], 8, 5, 0⟩
        ⟨"vh", [⟨"default", 0⟩], false⟩ { socket := false } 9 none
        (some ⟨0, []⟩) 1 { callback_ok := false }).parent_child ∧
    (lws_adopt_descriptor_vhost ⟨[0], 8, 5, 0⟩ ⟨"vh", [⟨"default", 0⟩], false⟩
        { socket := false } 9 none (some ⟨0, []⟩) 1
        { callback_ok := false }).closes = 0 := by
  decide

/-- C1 amended: for a fresh slot id, (a) every failing socket-type adoption
past the peer check restores the live-connection counter, closes the
descriptor exactly once and leaves the slot out of the parent child list;
(b) the same holds for any adoption (socket or file) failing through the
`bail:` region (steps 3-6); (c) a file-type adoption failing from step 7
onwards performs no cleanup: the counter stays incremented, the descriptor
is closed zero times and the slot stays linked in the parent child list;
and (d) a failure of the step 9 finish-phase role bind is ignored: the
result does not depend on its outcome. -/
theorem claim1_amended_unwind (ctx : Ctx) (vh : Vhost) (type0 : AdoptType)
    (fd : Nat) (nm : Option String) (parent : Option Parent) (nid : Nat)
    (o : Oracle) (hfresh : nid ∉ child_list0 parent) :
    (type0.socket = true →
      (lws_adopt_descriptor_vhost ctx vh type0 fd nm parent nid o).wsi =
        none →
      (lws_adopt_descriptor_vhost ctx vh type0 fd nm parent nid o).exit ≠
        ExitPath.rejected →
      (lws_adopt_descriptor_vhost ctx vh type0 fd nm parent nid o).count =
          ctx.count_wsi_allocated ∧
        (lws_adopt_descriptor_vhost ctx vh type0 fd nm parent nid
            o).closes = 1 ∧
        nid ∉ (lws_adopt_descriptor_vhost ctx vh type0 fd nm parent nid
            o).parent_child) ∧
    ((lws_adopt_descriptor_vhost ctx vh type0 fd nm parent nid o).exit =
        ExitPath.bailPath →
      (lws_adopt_descriptor_vhost ctx vh type0 fd nm parent nid o).count =
          ctx.count_wsi_allocated ∧
        (lws_adopt_descriptor_vhost ctx vh type0 fd nm parent nid
            o).closes = 1 ∧
        nid ∉ (lws_adopt_descriptor_vhost ctx vh type0 fd nm parent nid
            o).parent_child) ∧
    (type0.socket = false →
      (lws_adopt_descriptor_vhost ctx vh type0 fd nm parent nid o).exit =
        ExitPath.failPath →
      (lws_adopt_descriptor_vhost ctx vh type0 fd nm parent nid o).count =
          ctx.count_wsi_allocated + 1 ∧
        (lws_adopt_descriptor_vhost ctx vh type0 fd nm parent nid
            o).closes = 0 ∧
        (lws_adopt_descriptor_vhost ctx vh type0 fd nm parent nid
            o).parent_child = child_linked parent nid) ∧
    (∀ b, lws_adopt_descriptor_vhost ctx vh type0 fd nm parent nid
        { o with bind_finish_ok := b } =
      lws_adopt_descriptor_vhost ctx vh type0 fd nm parent nid o) := by
  have hd : ∀ b, lws_adopt_descriptor_vhost ctx vh type0 fd nm parent nid
      { o with bind_finish_ok := b } =
      lws_adopt_descriptor_vhost ctx vh type0 fd nm parent nid o := by
    intro b
    cases o
    rfl
  rcases adopt_descriptor_cases ctx vh type0 fd nm parent nid o with
    h | h | ⟨tr2, h⟩ | ⟨hsock, tr2, h⟩ | ⟨hsock, tr2, h⟩ |
    ⟨w2, pre, ins, hpre, hins, hflag, hid, h⟩
  · refine ⟨?_, ?_, ?_, hd⟩
    · intro _ _ hne
      rw [h] at hne
      exact absurd rfl hne
    · intro hb
      rw [h] at hb
      simp at hb
    · intro _ hb
      rw [h] at hb
      simp at hb
  · refine ⟨?_, ?_, ?_, hd⟩
    · intro hs _ _
      rw [h]
      exact ⟨rfl, by simp [hs], hfresh⟩
    · intro hb
      rw [h] at hb
      simp at hb
    · intro _ hb
      rw [h] at hb
      simp at hb
  · refine ⟨?_, ?_, ?_, hd⟩
    · intro _ _ _
      rw [h]
      exact ⟨rfl, rfl, hfresh⟩
    · intro _
      rw [h]
      exact ⟨rfl, rfl, hfresh⟩
    · intro _ hb
      rw [h] at hb
      simp at hb
  · refine ⟨?_, ?_, ?_, hd⟩
    · intro _ _ _
      rw [h]
      refine ⟨rfl, rfl, ?_⟩
      simp [List.mem_filter]
    · intro hb
      rw [h] at hb
      simp at hb
    · intro hs _
      rw [hsock] at hs
      simp at hs
  · refine ⟨?_, ?_, ?_, hd⟩
    · intro hs _ _
      rw [hsock] at hs
      simp at hs
    · intro hb
      rw [h] at hb
      simp at hb
    · intro _ _
      rw [h]
      exact ⟨rfl, rfl, rfl⟩
  · refine ⟨?_, ?_, ?_, hd⟩
    · intro _ hw _
      rw [h] at hw
      simp at hw
    · intro hb
      rw [h] at hb
      simp at hb
    · intro _ hb
      rw [h] at hb
      simp at hb

/-- Witness for C1 amended, part (a), at a socket adoption with a parent
(child list `[4]`, fresh slot id 1) and an injected fd-table insertion
failure: counter restored to 5, one close, slot not in the child list. -/
theorem claim1_amended_witness :
    (lws_adopt_descriptor_vhost ⟨[0], 8, 5, 0⟩ ⟨"vh", [⟨"default", 0⟩], false⟩
        { socket := true } 9 none (some ⟨0, [4]⟩) 1
        { insert_ok := false }).count = 5 ∧
    (lws_adopt_descriptor_vhost ⟨[0], 8, 5, 0⟩ ⟨"vh", [⟨"default", 0⟩], false⟩
        { socket := true } 9 none (some ⟨0, [4]⟩) 1
        { insert_ok := false }).closes = 1 ∧
    1 ∉ (lws_adopt_descriptor_vhost ⟨[0], 8, 5, 0⟩
        ⟨"vh", [⟨"default", 0⟩], false⟩ { socket := true } 9 none
        (some ⟨0, [4]⟩) 1 { insert_ok := false }).parent_child :=
  (claim1_amended_unwind ⟨[0], 8, 5, 0⟩ ⟨"vh", [⟨"default", 0⟩], false⟩
    { socket := true } 9 none (some ⟨0, [4]⟩) 1 { insert_ok := false }
    (by decide)).1 rfl (by decide) (by decide)

/-- C5 counterexample: a file-descriptor adoption with an injected fd-table
insertion failure exits through the `fail:` label, but the general
close-and-free entry point is never invoked — refuting the claim that Path
B is taken for every adopted descriptor regardless of kind. -/
theorem claim5_counterexample :
    (lws_adopt_descriptor_vhost ⟨[0], 8, 5, 0⟩ ⟨"vh", [⟨"default", 0⟩], false⟩
        { socket := false } 9 none none 1 { insert_ok := false }).exit =
      ExitPath.failPath ∧
    Event.closeFreeWsi ∉
      (lws_adopt_descriptor_vhost ⟨[0], 8, 5, 0⟩
        ⟨"vh", [⟨"default", 0⟩], false⟩ { socket := false } 9 none none 1
        { insert_ok := false }).trace ∧
    (lws_adopt_descriptor_vhost ⟨[0], 8, 5, 0⟩ ⟨"vh", [⟨"default", 0⟩], false⟩
        { socket := false } 9 none none 1 { insert_ok := false }).closes
      = 0 := by
  decide

/-- C5 amended: every adoption failure that exits through the
post-registration `fail:` label returns failure, and is unwound by the
single general-purpose close-and-free entry point exactly when the adopted
descriptor is a socket; for a file descriptor the `fail:` label performs no
teardown at all (no close, live-connection counter left incremented). -/
theorem claim5_amended_path_b (ctx : Ctx) (vh : Vhost) (type0 : AdoptType)
    (fd : Nat) (nm : Option String) (parent : Option Parent) (nid : Nat)
    (o : Oracle)
    (hfail : (lws_adopt_descriptor_vhost ctx vh type0 fd nm parent nid
        o).exit = ExitPath.failPath) :
    (lws_adopt_descriptor_vhost ctx vh type0 fd nm parent nid o).wsi =
      none ∧
    (type0.socket = true →
      Event.closeFreeWsi ∈
        (lws_adopt_descriptor_vhost ctx vh type0 fd nm parent nid
          o).trace ∧
      (lws_adopt_descriptor_vhost ctx vh type0 fd nm parent nid o).closes
        = 1) ∧
    (type0.socket = false →
      (lws_adopt_descriptor_vhost ctx vh type0 fd nm parent nid o).closes
          = 0 ∧
        (lws_adopt_descriptor_vhost ctx vh type0 fd nm parent nid
            o).count = ctx.count_wsi_allocated + 1) := by
  rcases adopt_descriptor_cases ctx vh type0 fd nm parent nid o with
    h | h | ⟨tr2, h⟩ | ⟨hsock, tr2, h⟩ | ⟨hsock, tr2, h⟩ |
    ⟨w2, pre, ins, hpre, hins, hflag, hid, h⟩
  · rw [h] at hfail
    simp at hfail
  · rw [h] at hfail
    simp at hfail
  · rw [h] at hfail
    simp at hfail
  · refine ⟨by rw [h], ?_, ?_⟩
    · intro _
      rw [h]
      exact ⟨by simp, rfl⟩
    · intro hs
      rw [hsock] at hs
      simp at hs
  · refine ⟨by rw [h], ?_, ?_⟩
    · intro hs
      rw [hsock] at hs
      simp at hs
    · intro _
      rw [h]
      exact ⟨rfl, rfl⟩
  · rw [h] at hfail
    simp at hfail

/-- Witness for C5 amended at a socket adoption rejected by the new-client
protocol callback: the trace contains the close-and-free invocation. -/
theorem claim5_amended_witness :
    Event.closeFreeWsi ∈
      (lws_adopt_descriptor_vhost ⟨[0], 8, 5, 0⟩
        ⟨"vh", [⟨"default", 0⟩], false⟩ { socket := true } 9 none none 1
        { callback_ok := false }).trace ∧
    (lws_adopt_descriptor_vhost ⟨[0], 8, 5, 0⟩ ⟨"vh", [⟨"default", 0⟩], false⟩
        { socket := true } 9 none none 1 { callback_ok := false }).wsi =
      none :=
  ⟨((claim5_amended_path_b ⟨[0], 8, 5, 0⟩ ⟨"vh", [⟨"default", 0⟩], false⟩
      { socket := true } 9 none none 1 { callback_ok := false }
      (by decide)).2.1 rfl).1,
   (claim5_amended_path_b ⟨[0], 8, 5, 0⟩ ⟨"vh", [⟨"default", 0⟩], false⟩
      { socket := true } 9 none none 1 { callback_ok := false }
      (by decide)).1⟩

/-- C4 counterexample: a successful concrete socket adoption emits the
full event trace in program order, and the clearing of
`undergoing_init_from_other_pt` strictly precedes `lws_cancel_service_pt`
(the step 10 wake of the owning thread) — refuting the claim that the flag
is cleared after step 10. -/
theorem claim4_counterexample :
    (lws_adopt_descriptor_vhost ⟨[0], 8, 5, 0⟩ ⟨"vh", [⟨"default", 0⟩], false⟩
        { socket := true } 9 none none 1 {}).trace =
      [Event.wsiCreateCb true, Event.setInitFlag, Event.insertFds,
       Event.newClientCb, Event.bindFinish, Event.clearInitFlag,
       Event.cancelService] ∧
    countEv (lws_adopt_descriptor_vhost ⟨[0], 8, 5, 0⟩
        ⟨"vh", [⟨"default", 0⟩], false⟩ { socket := true } 9 none none 1
        {}).trace Event.clearInitFlag = 1 ∧
    idxEv (lws_adopt_descriptor_vhost ⟨[0], 8, 5, 0⟩
        ⟨"vh", [⟨"default", 0⟩], false⟩ { socket := true } 9 none none 1
        {}).trace Event.clearInitFlag <
      idxEv (lws_adopt_descriptor_vhost ⟨[0], 8, 5, 0⟩
        ⟨"vh", [⟨"default", 0⟩], false⟩ { socket := true } 9 none none 1
        {}).trace Event.cancelService := by
  decide

/-- C4 amended: on every successful adoption the initializing flag is set
exactly once and cleared exactly once; the setting precedes any insertion
into the owning thread poll table; the clearing happens after the step 9
finish-phase role bind and before the step 10 wake
(`lws_cancel_service_pt`), not after it; the returned slot carries the flag
cleared; and (modelled from the spec) the owning thread poll loop never
services a slot while the flag is set. -/
theorem claim4_amended_init_flag (ctx : Ctx) (vh : Vhost)
    (type0 : AdoptType) (fd : Nat) (nm : Option String)
    (parent : Option Parent) (nid : Nat) (o : Oracle)
    (hok : (lws_adopt_descriptor_vhost ctx vh type0 fd nm parent nid
        o).exit = ExitPath.okPath) :
    countEv (lws_adopt_descriptor_vhost ctx vh type0 fd nm parent nid
        o).trace Event.setInitFlag = 1 ∧
    countEv (lws_adopt_descriptor_vhost ctx vh type0 fd nm parent nid
        o).trace Event.clearInitFlag = 1 ∧
    (Event.insertFds ∈ (lws_adopt_descriptor_vhost ctx vh type0 fd nm
        parent nid o).trace →
      idxEv (lws_adopt_descriptor_vhost ctx vh type0 fd nm parent nid
          o).trace Event.setInitFlag <
        idxEv (lws_adopt_descriptor_vhost ctx vh type0 fd nm parent nid
          o).trace Event.insertFds) ∧
    idxEv (lws_adopt_descriptor_vhost ctx vh type0 fd nm parent nid
        o).trace Event.bindFinish <
      idxEv (lws_adopt_descriptor_vhost ctx vh type0 fd nm parent nid
        o).trace Event.clearInitFlag ∧
    idxEv (lws_adopt_descriptor_vhost ctx vh type0 fd nm parent nid
        o).trace Event.clearInitFlag <
      idxEv (lws_adopt_descriptor_vhost ctx vh type0 fd nm parent nid
        o).trace Event.cancelService ∧
    (∀ w, (lws_adopt_descriptor_vhost ctx vh type0 fd nm parent nid
        o).wsi = some w → w.undergoing_init_from_other_pt = false) ∧
    (∀ w, w.undergoing_init_from_other_pt = true →
      pt_service_may_process w = false) := by
  rcases adopt_descriptor_cases ctx vh type0 fd nm parent nid o with
    h | h | ⟨tr2, h⟩ | ⟨hsock, tr2, h⟩ | ⟨hsock, tr2, h⟩ |
    ⟨w2, pre, ins, hpre, hins, hflag, hid, h⟩
  · rw [h] at hok
    simp at hok
  · rw [h] at hok
    simp at hok
  · rw [h] at hok
    simp at hok
  · rw [h] at hok
    simp at hok
  · rw [h] at hok
    simp at hok
  · rcases hpre with hpre | hpre <;> rcases hins with hins | hins <;>
      rw [hpre, hins] at h <;>
      exact ⟨by rw [h]; dsimp only; decide,
             by rw [h]; dsimp only; decide,
             by rw [h]; dsimp only; decide,
             by rw [h]; dsimp only; decide,
             by rw [h]; dsimp only; decide,
             fun w hw => by
               rw [h] at hw
               simp at hw
               rw [← hw]
               exact hflag,
             fun w hw => by simp [pt_service_may_process, hw]⟩

/-- Witness for C4 amended at a concrete successful socket adoption with
TLS disabled, exercising the insertion branch. -/
theorem claim4_amended_witness :
    countEv (lws_adopt_descriptor_vhost ⟨[0], 8, 5, 0⟩
        ⟨"vh", [⟨"default", 0⟩], false⟩ { socket := true } 9 none none 2
        {}).trace Event.clearInitFlag = 1 ∧
    idxEv (lws_adopt_descriptor_vhost ⟨[0], 8, 5, 0⟩
        ⟨"vh", [⟨"default", 0⟩], false⟩ { socket := true } 9 none none 2
        {}).trace Event.bindFinish <
      idxEv (lws_adopt_descriptor_vhost ⟨[0], 8, 5, 0⟩
        ⟨"vh", [⟨"default", 0⟩], false⟩ { socket := true } 9 none none 2
        {}).trace Event.clearInitFlag :=
  ⟨(claim4_amended_init_flag ⟨[0], 8, 5, 0⟩ ⟨"vh", [⟨"default", 0⟩], false⟩
      { socket := true } 9 none none 2 {} (by decide)).2.1,
   (claim4_amended_init_flag ⟨[0], 8, 5, 0⟩ ⟨"vh", [⟨"default", 0⟩], false⟩
      { socket := true } 9 none none 2 {} (by decide)).2.2.2.1⟩

/-- C10: a readbuf adoption step on a successfully adopted slot returns the
live slot unchanged — no segment appended, no service driven, no failure —
whenever the byte pointer is null, the length is zero, or the slot poll
position is still the `LWS_NO_FDS_POS` sentinel (where the supplied bytes
are silently dropped). -/
theorem claim10_readbuf_early_returns (w : Wsi) (rb : Option (List Nat))
    (o : ReadbufOracle)
    (h : rb = none ∨ rb = some [] ∨ w.position_in_fds_table = none) :
    adopt_socket_readbuf (some w) rb o = ⟨some w, []⟩ := by
  rcases h with h | h | h
  · rw [h]
    rfl
  · rw [h]
    simp [adopt_socket_readbuf]
  · cases rb with
    | none => rfl
    | some bs =>
      by_cases hb : bs.length = 0
      · simp [adopt_socket_readbuf, hb]
      · simp [adopt_socket_readbuf, hb, h]

/-- Witness for C10 at a slot still carrying the unassigned poll-position
sentinel and a nonempty byte range: the bytes are dropped and the slot
returned unchanged. -/
theorem claim10_witness :
    adopt_socket_readbuf (some { id := 3 }) (some [1, 2]) {} =
      ⟨some { id := 3 }, []⟩ :=
  claim10_readbuf_early_returns { id := 3 } (some [1, 2]) {}
    (Or.inr (Or.inr rfl))

/-- C8: for a prebuffered-bytes adoption on a live registered slot with the
append allocation succeeding: when the slot holds no header-parsing context
and none can be attached, the call returns the live slot with the bytes
appended to its pending list and no service driven (still queued, not
replayed); when a context is held or can be attached, a synthetic readable
event is flagged and serviced synchronously before the call returns. -/
theorem claim8_readbuf_defer_or_service (w : Wsi) (bs : List Nat)
    (o : ReadbufOracle) (p : Nat)
    (hpos : w.position_in_fds_table = some p) (hbs : bs ≠ [])
    (halloc : o.append_alloc_ok = true) :
    (w.http_ah = false → o.attach_ok = false →
      adopt_socket_readbuf (some w) (some bs) o =
        ⟨some { w with
            buflist := w.buflist ++ [bs],
            in_pt_buflist := w.in_pt_buflist || w.buflist.isEmpty },
         []⟩) ∧
    ((w.http_ah = true ∨ o.attach_ok = true) →
      Event.pollinFlagged ∈
          (adopt_socket_readbuf (some w) (some bs) o).trace ∧
        Event.serviceFd ∈
          (adopt_socket_readbuf (some w) (some bs) o).trace) := by
  have hlen : ¬ bs.length = 0 := by
    simpa [List.length_eq_zero] using hbs
  have hposne : ¬ w.position_in_fds_table = none := by
    rw [hpos]
    simp
  refine ⟨?_, ?_⟩
  · intro hah hat
    rw [adopt_socket_readbuf]
    simp [hlen, hposne, halloc, hah, hat]
  · intro hor
    rw [adopt_socket_readbuf]
    cases hsc : o.service_closed <;> simp [hlen, hposne, halloc, hsc, hor]

/-- Witness for C8 in the deferral branch: a registered slot with no
header-parsing context and none attachable keeps the single byte segment
queued and drives no service. -/
theorem claim8_witness :
    adopt_socket_readbuf (some { id := 4, position_in_fds_table := some 0 })
        (some [7]) { attach_ok := false } =
      ⟨some { id := 4, position_in_fds_table := some 0, buflist := [[7]],
              in_pt_buflist := true }, []⟩ := by
  have h := (claim8_readbuf_defer_or_service
    { id := 4, position_in_fds_table := some 0 } [7] { attach_ok := false }
    0 rfl (by decide) rfl).1 rfl rfl
  simpa using h

/-- C9: a UDP-child creation whose flags do not include `LWS_CAUDP_BIND`
never issues a `bind()` call; once an address resolves and a socket is
created, the socket is handed to `lws_adopt_descriptor_vhost` with the
UDP-specific `LWS_ADOPT_RAW_SOCKET_UDP` type flag, and whenever that
adoption yields a slot the creation call returns it. -/
theorem claim9_udp_no_bind (ctx : Ctx) (vh : Vhost) (port : Nat)
    (protocol_name : Option String) (parent : Option Parent) (nid : Nat)
    (o : UdpOracle) :
    UdpEvent.bindCall ∉ (lws_create_adopt_udp ctx vh port false
        protocol_name parent nid o).trace ∧
    (∀ n i, o.addrinfo = some n →
      (List.range n).find? (fun j => o.socket_ok.getD j false) = some i →
      UdpEvent.adoptCall LWS_ADOPT_RAW_SOCKET_UDP ∈
        (lws_create_adopt_udp ctx vh port false protocol_name parent nid
          o).trace) ∧
    (∀ n i w, o.addrinfo = some n →
      (List.range n).find? (fun j => o.socket_ok.getD j false) = some i →
      (lws_adopt_descriptor_vhost ctx vh LWS_ADOPT_RAW_SOCKET_UDP o.sockfd
          protocol_name parent nid o.adopt).wsi = some w →
      (lws_create_adopt_udp ctx vh port false protocol_name parent nid
        o).wsi = some w) := by
  refine ⟨?_, ?_, ?_⟩
  · rw [lws_create_adopt_udp.eq_def]
    dsimp only
    cases haddr : o.addrinfo with
    | none => simp
    | some n =>
      dsimp only
      cases hfound : (List.range n).find?
          (fun j => o.socket_ok.getD j false) with
      | none => simp
      | some i =>
        dsimp only
        cases hw : (lws_adopt_descriptor_vhost ctx vh
            LWS_ADOPT_RAW_SOCKET_UDP o.sockfd protocol_name parent nid
            o.adopt).wsi with
        | none => simp [hw, List.mem_map]
        | some w => simp [hw, List.mem_map]
  · intro n i haddr hfound
    rw [lws_create_adopt_udp.eq_def, haddr]
    dsimp only
    rw [hfound]
    dsimp only
    cases hw : (lws_adopt_descriptor_vhost ctx vh LWS_ADOPT_RAW_SOCKET_UDP
        o.sockfd protocol_name parent nid o.adopt).wsi with
    | none => simp
    | some w => simp
  · intro n i w haddr hfound hwsi
    rw [lws_create_adopt_udp.eq_def, haddr]
    dsimp only
    rw [hfound]
    dsimp only
    rw [hwsi]
    simp

/-- Witness for C9 at a one-entry address list whose socket call succeeds
and an all-success adoption oracle: no bind call, the UDP adoption event is
present, and a live slot is returned. -/
theorem claim9_witness :
    UdpEvent.bindCall ∉ (lws_create_adopt_udp ⟨[0], 8, 5, 0⟩
        ⟨"vh", [⟨"default", 0⟩], false⟩ 7 false none none 1 {}).trace ∧
    UdpEvent.adoptCall LWS_ADOPT_RAW_SOCKET_UDP ∈
      (lws_create_adopt_udp ⟨[0], 8, 5, 0⟩ ⟨"vh", [⟨"default", 0⟩], false⟩
        7 false none none 1 {}).trace ∧
    (lws_create_adopt_udp ⟨[0], 8, 5, 0⟩ ⟨"vh", [⟨"default", 0⟩], false⟩
        7 false none none 1 {}).wsi.isSome = true := by
  refine ⟨(claim9_udp_no_bind ⟨[0], 8, 5, 0⟩ ⟨"vh", [⟨"default", 0⟩], false⟩
      7 none none 1 {}).1,
    (claim9_udp_no_bind ⟨[0], 8, 5, 0⟩ ⟨"vh", [⟨"default", 0⟩], false⟩
      7 none none 1 {}).2.1 1 0 rfl (by decide), ?_⟩
  have hw : (lws_adopt_descriptor_vhost ⟨[0], 8, 5, 0⟩
      ⟨"vh", [⟨"default", 0⟩], false⟩ LWS_ADOPT_RAW_SOCKET_UDP 0 none none
      1 {}).wsi.isSome = true := by decide
  rcases Option.isSome_iff_exists.mp hw with ⟨w, hwz⟩
  have h := (claim9_udp_no_bind ⟨[0], 8, 5, 0⟩
    ⟨"vh", [⟨"default", 0⟩], false⟩ 7 none none 1 {}).2.2 1 0 w rfl
    (by decide) hwz
  rw [h]
  rfl

end Adopt


